import Mathlib

/-!
Shallow embedding of the lead-management application's assignment/lifecycle
engine (src/app.py, src/models.py) and proofs about it.

Modelling conventions:
* machine integers and SQL ids are `Nat`; timestamps are `Nat` hours, a
  calendar day is `t / 24`;
* each SQL table is a `List` of rows inside a `DB` record; an SQL
  `UPDATE ... WHERE` is a `List.map` that rewrites the matching rows,
  an `INSERT` is an append, `SELECT ... ORDER BY` is `List.insertionSort`;
* notification / note message strings are represented by the inductive
  `Msg` that keeps exactly the payload the queries inspect (the
  `[Activity #N]` suffix used by the reminder dedup `LIKE` pattern becomes
  the `Msg.reminder` constructor carrying `N`; no other message the
  application produces ends with that bracket tag);
* fallible handlers return a `Res` code together with the new database,
  mirroring the flash/redirect outcome of each Flask route.
-/

namespace LMS

inductive Role where
  | admin | manager | marketer | bd_sales
deriving DecidableEq, Repr

inductive LeadStatus where
  | Pending | Accepted | Rejected | Resubmitted
deriving DecidableEq, Repr

inductive AsgStatus where
  | pending | acted | reassigned | expired | reverted
deriving DecidableEq, Repr

inductive NoteType where
  | system | rejection | reversion | resubmission
deriving DecidableEq, Repr

inductive NotifType where
  | info | warning | success | assignment
deriving DecidableEq, Repr

/-- Message contents, abstracting the f-strings built in src/app.py.
`reminder aid hasDue` stands for
`f'Reminder: {title} for {company} ... [Activity #{aid}]'` (app.py 769-772):
it is the only message shape ending in the `[Activity #N]` bracket tag that
the reminder dedup query (app.py 775-780) pattern-matches with
`LIKE '%[Activity #N]'`. -/
inductive Msg where
  | leadCreated
  | autoAssigned
  | newLeadAssigned
  | leadAccepted
  | leadRejected
  | leadReverted
  | leadResubmitted
  | autoReassignedNew
  | autoReassignedOld
  | bdAssigned
  | stageMoved
  | reminder (activityId : Nat) (hasDue : Bool)
deriving DecidableEq, Repr

/-- `message LIKE '%[Activity #N]'` (app.py 775-780): only reminder
messages end with the bracket tag, and the tag matches iff the embedded
activity id is `n` (the character before the digits must be `#`). -/
def msgTag : Msg → Option Nat
  | .reminder aid _ => some aid
  | _ => none

structure User where
  id : Nat
  role : Role
deriving DecidableEq, Repr

structure Lead where
  id : Nat
  submitted_by_user_id : Nat
  status : LeadStatus
  current_manager_id : Option Nat
  assigned_bd_id : Option Nat
  current_stage_id : Option Nat
  accepted_at : Option Nat
deriving DecidableEq, Repr

structure LeadAssignment where
  id : Nat
  lead_id : Nat
  manager_id : Nat
  assigned_at : Nat
  deadline_at : Nat
  acted_at : Option Nat
  status : AsgStatus
  is_initial_assignment : Bool
deriving DecidableEq, Repr

/-- The singleton `assignment_settings` row (id = 1). -/
structure Settings where
  last_assigned_manager_id : Option Nat
  last_assigned_bd_id : Option Nat
deriving DecidableEq, Repr

structure Notification where
  id : Nat
  user_id : Nat
  lead_id : Option Nat
  msg : Msg
  ntype : NotifType
  created_day : Nat
deriving DecidableEq, Repr

structure LeadNote where
  lead_id : Nat
  author_user_id : Nat
  note_type : NoteType
  msg : Msg
deriving DecidableEq, Repr

structure LeadAssignmentHistory where
  assignment_id : Nat
  lead_id : Nat
  old_manager_id : Nat
  new_manager_id : Nat
deriving DecidableEq, Repr

structure BDAssignmentHistory where
  lead_id : Nat
  from_bd_id : Option Nat
  to_bd_id : Nat
  assigned_by_id : Nat
deriving DecidableEq, Repr

structure LeadStageHistory where
  lead_id : Nat
  from_stage_id : Option Nat
  to_stage_id : Nat
  changed_by_id : Nat
deriving DecidableEq, Repr

structure LeadActivity where
  id : Nat
  lead_id : Nat
  actor_id : Nat
  due_at : Option Nat
  completed_at : Option Nat
  reminder_at : Option Nat
deriving DecidableEq, Repr

structure PipelineStage where
  id : Nat
  position : Nat
deriving DecidableEq, Repr

structure DB where
  users : List User
  leads : List Lead
  lead_assignments : List LeadAssignment
  assignment_settings : Option Settings
  notifications : List Notification
  lead_notes : List LeadNote
  lead_assignment_history : List LeadAssignmentHistory
  bd_assignment_history : List BDAssignmentHistory
  lead_stage_history : List LeadStageHistory
  lead_activities : List LeadActivity
  pipeline_stages : List PipelineStage
  nextLeadId : Nat
  nextAssignmentId : Nat
  nextNotificationId : Nat
  nextActivityId : Nat
  now : Nat
deriving DecidableEq, Repr

/-- `DATE(created_at)`: calendar day of an hour-count timestamp. -/
def dayOf (t : Nat) : Nat := t / 24

/-- Route outcome, mirroring the flash/redirect result of each handler. -/
inductive Res where
  | ok | notFound | forbidden | invalidState | noCandidate | noStage | formInvalid
deriving DecidableEq, Repr

/-! ## Pure round-robin core (app.py 410-462, duplicated inline at 1321-1359)

`SELECT id FROM users WHERE role = 'manager' ORDER BY id` yields the pool in
ascending id order.  The Python guard is
`if last_assigned_id and last_assigned_id in manager_ids` — truthiness, so a
`NULL` (or `0`) pointer and a pointer no longer in the pool both restart at
the first candidate; otherwise the candidate after the pointer is taken,
wrapping via `(index + 1) % len`. -/

def rrChoose (pool : List Nat) (ptr : Option Nat) : Option Nat :=
  match pool with
  | [] => none
  | p :: rest =>
    some (match ptr with
      | none => p
      | some lastId =>
        if lastId ≠ 0 ∧ lastId ∈ (p :: rest) then
          (p :: rest).get ⟨((p :: rest).indexOf lastId + 1) % (p :: rest).length,
            Nat.mod_lt _ (Nat.succ_pos rest.length)⟩
        else p)

/-- Index into `pool` of the candidate `rrChoose` picks. -/
def rrIdx (pool : List Nat) (ptr : Option Nat) : Nat :=
  match ptr with
  | none => 0
  | some lastId =>
    if lastId ≠ 0 ∧ lastId ∈ pool then (pool.indexOf lastId + 1) % pool.length else 0

/-- Iterated take-next: each selection durably moves the pointer to the
chosen id (app.py 446-456), so the next call starts from it. -/
def rrRun (pool : List Nat) : Option Nat → Nat → List Nat
  | _, 0 => []
  | ptr, Nat.succ k =>
    match rrChoose pool ptr with
    | none => []
    | some c => c :: rrRun pool (some c) k

/-! ## Database-level operations

Each Flask handler from src/app.py becomes a function `DB → ... → Res × DB`
(or `DB → DB` for the background sweeps).  Tables the claims never inspect
(services, targets, social profiles, attachments) are not modelled. -/

/-- `SELECT id FROM users WHERE role = %s ORDER BY id` -/
def sortedIds (l : List Nat) : List Nat := l.insertionSort (· ≤ ·)

def roleIds (db : DB) (r : Role) : List Nat :=
  sortedIds ((db.users.filter (fun u => u.role == r)).map (fun u => u.id))

def managerPool (db : DB) : List Nat := roleIds db Role.manager

def settingsLastManager (db : DB) : Option Nat :=
  match db.assignment_settings with
  | some s => s.last_assigned_manager_id
  | none => none

def settingsLastBd (db : DB) : Option Nat :=
  match db.assignment_settings with
  | some s => s.last_assigned_bd_id
  | none => none

/-- app.py 410-462: round-robin take-next over the manager pool; advances the
stored pointer to the chosen id (UPDATE when the singleton row exists,
INSERT otherwise — both leave the row holding `some chosen`). -/
def get_next_manager_for_assignment (db : DB) : Option Nat × DB :=
  match rrChoose (managerPool db) (settingsLastManager db) with
  | none => (none, db)
  | some nid =>
    (some nid, { db with
      assignment_settings := some
        ({ last_assigned_manager_id := some nid,
           last_assigned_bd_id := settingsLastBd db }) })

def findLead (db : DB) (lid : Nat) : Option Lead :=
  db.leads.find? (fun l => l.id == lid)

/-- Manager allocation step of `new_lead` (app.py 1318-1371): for a marketer
submitter the round-robin logic of app.py 410-462 is inlined (app.py
1321-1359, including the pointer update in the same transaction); for a
manager submitter the `ORDER BY RANDOM() LIMIT 1` pick of another manager is
supplied by the caller as `randPick` (`none` when no other manager exists). -/
def newLeadAllocate (db : DB) (submitter : User) (randPick : Option Nat) :
    Option Nat × DB :=
  if submitter.role = Role.marketer then
    match rrChoose (managerPool db) (settingsLastManager db) with
    | none => (none, db)
    | some m =>
      (some m, { db with
        assignment_settings := some
          ({ last_assigned_manager_id := some m,
             last_assigned_bd_id := settingsLastBd db }) })
  else (randPick, db)

/-- app.py 1291-1445 `new_lead` (validated-form path): creates the lead with
status Pending, writes the creation note, and — when a manager was allocated —
the assignment note, a pending LeadAssignment with a 15-hour deadline marked
`is_initial_assignment`, and a notification to the manager.
Returns the new lead id. -/
def new_lead (db : DB) (submitter : User) (randPick : Option Nat) : Res × DB × Nat :=
  if submitter.role = Role.marketer ∨ submitter.role = Role.manager then
    let rrRes : Option Nat × DB := newLeadAllocate db submitter randPick
    let assigned := rrRes.fst
    let db1 := rrRes.snd
    let lid := db.nextLeadId
    let newLead : Lead :=
      { id := lid, submitted_by_user_id := submitter.id, status := .Pending,
        current_manager_id := assigned, assigned_bd_id := none,
        current_stage_id := none, accepted_at := none }
    let db2 := { db1 with
      leads := db1.leads ++ [newLead],
      nextLeadId := db1.nextLeadId + 1,
      lead_notes := db1.lead_notes ++
        [{ lead_id := lid, author_user_id := submitter.id,
           note_type := .system, msg := .leadCreated }] }
    match assigned with
    | none => (.ok, db2, lid)
    | some m =>
      (.ok, { db2 with
        lead_notes := db2.lead_notes ++
          [{ lead_id := lid, author_user_id := submitter.id,
             note_type := .system, msg := .autoAssigned }],
        lead_assignments := db2.lead_assignments ++
          [{ id := db2.nextAssignmentId, lead_id := lid, manager_id := m,
             assigned_at := db.now, deadline_at := db.now + 15,
             acted_at := none, status := .pending, is_initial_assignment := true }],
        nextAssignmentId := db2.nextAssignmentId + 1,
        notifications := db2.notifications ++
          [{ id := db2.nextNotificationId, user_id := m, lead_id := some lid,
             msg := .newLeadAssigned, ntype := .assignment,
             created_day := dayOf db.now }],
        nextNotificationId := db2.nextNotificationId + 1 }, lid)
  else (.forbidden, db, 0)

/-- app.py 1949: `UPDATE leads SET status='Accepted', accepted_at=now WHERE id=%s`. -/
def acceptLeadUpd (lid : Nat) (now : Nat) (l : Lead) : Lead :=
  if l.id == lid then { l with status := .Accepted, accepted_at := some now } else l

/-- app.py 1951-1955: `UPDATE lead_assignments SET acted_at=now, status='acted'
WHERE lead_id=%s AND manager_id=%s AND status='pending'`. -/
def acceptAsgUpd (actorId : Nat) (lid : Nat) (now : Nat)
    (a : LeadAssignment) : LeadAssignment :=
  if a.lead_id == lid && a.manager_id == actorId && a.status == AsgStatus.pending
  then { a with acted_at := some now, status := .acted } else a

/-- app.py 1934-1974 `accept_lead`: no check of the lead's current status;
marks `acted` exactly the pending assignment rows belonging to the acting
user (app.py 1951-1955). -/
def accept_lead (db : DB) (actor : User) (lid : Nat) : Res × DB :=
  if actor.role = Role.admin ∨ actor.role = Role.manager then
    match findLead db lid with
    | none => (.notFound, db)
    | some lead =>
      (.ok, { db with
        leads := db.leads.map (acceptLeadUpd lid db.now),
        lead_assignments := db.lead_assignments.map (acceptAsgUpd actor.id lid db.now),
        lead_notes := db.lead_notes ++
          [{ lead_id := lid, author_user_id := actor.id,
             note_type := .system, msg := .leadAccepted }],
        notifications := db.notifications ++
          [{ id := db.nextNotificationId, user_id := lead.submitted_by_user_id,
             lead_id := some lid, msg := .leadAccepted, ntype := .info,
             created_day := dayOf db.now }],
        nextNotificationId := db.nextNotificationId + 1 })
  else (.forbidden, db)

/-- app.py 2123: `UPDATE leads SET status='Rejected' WHERE id=%s`. -/
def rejectLeadUpd (lid : Nat) (l : Lead) : Lead :=
  if l.id == lid then { l with status := .Rejected } else l

/-- app.py 2105-2145 `reject_lead`: also no status check; `commentOk` is the
`RejectForm` validation outcome (length 10-1000). -/
def reject_lead (db : DB) (actor : User) (lid : Nat) (commentOk : Bool) : Res × DB :=
  if actor.role = Role.admin ∨ actor.role = Role.manager then
    match findLead db lid with
    | none => (.notFound, db)
    | some lead =>
      if commentOk then
        (.ok, { db with
          leads := db.leads.map (rejectLeadUpd lid),
          lead_notes := db.lead_notes ++
            [{ lead_id := lid, author_user_id := actor.id,
               note_type := .rejection, msg := .leadRejected }],
          notifications := db.notifications ++
            [{ id := db.nextNotificationId, user_id := lead.submitted_by_user_id,
               lead_id := some lid, msg := .leadRejected, ntype := .info,
               created_day := dayOf db.now }],
          nextNotificationId := db.nextNotificationId + 1 })
      else (.formInvalid, db)
  else (.forbidden, db)

/-- app.py 2173-2174: `UPDATE leads SET status='Rejected', accepted_at=NULL,
current_manager_id=%s WHERE id=%s`. -/
def revertLeadUpd (lid : Nat) (actorId : Nat) (l : Lead) : Lead :=
  if l.id == lid then
    { l with status := .Rejected, accepted_at := none,
             current_manager_id := some actorId }
  else l

/-- app.py 2176-2180: `UPDATE lead_assignments SET status='reverted'
WHERE lead_id=%s AND status='acted'`. -/
def revertAsgUpd (lid : Nat) (a : LeadAssignment) : LeadAssignment :=
  if a.lead_id == lid && a.status == AsgStatus.acted then
    { a with status := .reverted }
  else a

/-- app.py 2147-2209 `revert_lead`: requires status Accepted; marks the
`acted` rows `reverted` and inserts a fresh pending assignment for the
acting manager with a 4-hour deadline. -/
def revert_lead (db : DB) (actor : User) (lid : Nat) (commentOk : Bool) : Res × DB :=
  if actor.role = Role.admin ∨ actor.role = Role.manager then
    match findLead db lid with
    | none => (.notFound, db)
    | some lead =>
      if lead.status ≠ LeadStatus.Accepted then (.invalidState, db)
      else if commentOk then
        (.ok, { db with
          leads := db.leads.map (revertLeadUpd lid actor.id),
          lead_assignments := (db.lead_assignments.map (revertAsgUpd lid)) ++
            [{ id := db.nextAssignmentId, lead_id := lid, manager_id := actor.id,
               assigned_at := db.now, deadline_at := db.now + 4,
               acted_at := none, status := .pending, is_initial_assignment := false }],
          nextAssignmentId := db.nextAssignmentId + 1,
          lead_notes := db.lead_notes ++
            [{ lead_id := lid, author_user_id := actor.id,
               note_type := .reversion, msg := .leadReverted }],
          notifications := db.notifications ++
            [{ id := db.nextNotificationId, user_id := lead.submitted_by_user_id,
               lead_id := some lid, msg := .leadReverted, ntype := .info,
               created_day := dayOf db.now }],
          nextNotificationId := db.nextNotificationId + 1 })
      else (.formInvalid, db)
  else (.forbidden, db)

/-- app.py 2239: `UPDATE leads SET status='Resubmitted' WHERE id=%s`. -/
def resubmitLeadUpd (lid : Nat) (l : Lead) : Lead :=
  if l.id == lid then { l with status := .Resubmitted } else l

/-- `SELECT id FROM users WHERE role IN ('admin', 'manager')` (app.py 2246). -/
def adminManagerIds (db : DB) : List Nat :=
  (db.users.filter (fun u =>
    u.role == Role.admin || u.role == Role.manager)).map (fun u => u.id)

/-- app.py 2211-2265 `resubmit_lead`: only the original submitter, only from
status Rejected; notifies every admin and manager. -/
def resubmit_lead (db : DB) (actor : User) (lid : Nat) (commentOk : Bool) : Res × DB :=
  if actor.role = Role.marketer ∨ actor.role = Role.manager then
    match findLead db lid with
    | none => (.notFound, db)
    | some lead =>
      if lead.submitted_by_user_id ≠ actor.id then (.forbidden, db)
      else if lead.status ≠ LeadStatus.Rejected then (.invalidState, db)
      else if commentOk then
        let recips := adminManagerIds db
        (.ok, { db with
          leads := db.leads.map (resubmitLeadUpd lid),
          lead_notes := db.lead_notes ++
            [{ lead_id := lid, author_user_id := actor.id,
               note_type := .resubmission, msg := .leadResubmitted }],
          notifications := db.notifications ++
            recips.enum.map (fun p =>
              { id := db.nextNotificationId + p.fst, user_id := p.snd,
                lead_id := some lid, msg := .leadResubmitted, ntype := .info,
                created_day := dayOf db.now }),
          nextNotificationId := db.nextNotificationId + recips.length })
      else (.formInvalid, db)
  else (.forbidden, db)

/-- `SELECT id FROM pipeline_stages ORDER BY position LIMIT 1` (app.py 2029). -/
def firstStageId (db : DB) : Option Nat :=
  (((db.pipeline_stages.insertionSort (fun s t => s.position ≤ t.position)).map
    (fun s => s.id)).head?)

/-- app.py 1976-2103 `assign_bd_sales` (validated-form path): requires status
Accepted; sets both `assigned_bd_id` and `current_stage_id` (first stage by
position); logs BD history, stage history when the stage changes, moves the
BD round-robin pointer to the actually chosen user when it changed, writes an
assignment activity and notifies the new BD user. -/
def assign_bd_sales (db : DB) (actor : User) (lid : Nat) (bdId : Nat) : Res × DB :=
  if actor.role = Role.admin ∨ actor.role = Role.manager ∨ actor.role = Role.bd_sales then
    match findLead db lid with
    | none => (.notFound, db)
    | some lead =>
      if lead.status ≠ LeadStatus.Accepted then (.invalidState, db)
      else if ((db.users.filter (fun u => u.role == Role.bd_sales)).length = 0) then
        (.noCandidate, db)
      else
        match firstStageId db with
        | none => (.noStage, db)
        | some fs =>
          let currentBd := lead.assigned_bd_id
          let db1 : DB := { db with
            leads := db.leads.map (fun l =>
              if l.id == lid then
                { l with assigned_bd_id := some bdId, current_stage_id := some fs }
              else l),
            bd_assignment_history := db.bd_assignment_history ++
              [{ lead_id := lid, from_bd_id := currentBd, to_bd_id := bdId,
                 assigned_by_id := actor.id }] }
          let db2 : DB :=
            if fs ≠ 0 ∧ lead.current_stage_id ≠ some fs then
              { db1 with lead_stage_history := db1.lead_stage_history ++
                [{ lead_id := lid, from_stage_id := lead.current_stage_id,
                   to_stage_id := fs, changed_by_id := actor.id }] }
            else db1
          let db3 : DB :=
            if currentBd ≠ some bdId then
              { db2 with
                assignment_settings := some
                  ({ last_assigned_manager_id := settingsLastManager db,
                     last_assigned_bd_id := some bdId }) }
            else db2
          (.ok, { db3 with
            lead_activities := db3.lead_activities ++
              [{ id := db3.nextActivityId, lead_id := lid, actor_id := actor.id,
                 due_at := none, completed_at := none, reminder_at := none }],
            nextActivityId := db3.nextActivityId + 1,
            notifications := db3.notifications ++
              [{ id := db3.nextNotificationId, user_id := bdId, lead_id := some lid,
                 msg := .bdAssigned, ntype := .info, created_day := dayOf db.now }],
            nextNotificationId := db3.nextNotificationId + 1 })
  else (.forbidden, db)

/-- app.py 3148-3253 `update_lead_stage` (PATCH /api/lead/id/stage): verifies
the stage exists and, for a BD-sales actor, ownership of the lead — but there
is no check of the lead's status nor of `assigned_bd_id` being set.  Sets
`current_stage_id`, appends stage history, and notifies the assigned BD user
when someone else moved the lead. -/
def update_lead_stage (db : DB) (actor : User) (lid : Nat) (sid : Nat) : Res × DB :=
  if actor.role = Role.admin ∨ actor.role = Role.manager ∨ actor.role = Role.bd_sales then
    if sid = 0 then (.formInvalid, db)
    else if ¬(db.pipeline_stages.any (fun s => s.id == sid)) then (.notFound, db)
    else
      match findLead db lid with
      | none => (.notFound, db)
      | some lead =>
        if actor.role = Role.bd_sales ∧ lead.assigned_bd_id ≠ some actor.id then
          (.forbidden, db)
        else
          let db1 : DB := { db with
            leads := db.leads.map (fun l =>
              if l.id == lid then { l with current_stage_id := some sid } else l),
            lead_stage_history := db.lead_stage_history ++
              [{ lead_id := lid, from_stage_id := lead.current_stage_id,
                 to_stage_id := sid, changed_by_id := actor.id }] }
          match lead.assigned_bd_id with
          | some b =>
            if b ≠ actor.id then
              (.ok, { db1 with
                notifications := db1.notifications ++
                  [{ id := db1.nextNotificationId, user_id := b, lead_id := some lid,
                     msg := .stageMoved, ntype := .info, created_day := dayOf db.now }],
                nextNotificationId := db1.nextNotificationId + 1 })
            else (.ok, db1)
          | none => (.ok, db1)
  else (.forbidden, db)

/-! ## Background sweeps (app.py 603-807) -/

inductive SqlError where
  | parameterCountMismatch
deriving DecidableEq, Repr

deriving instance DecidableEq for Except

/-- The `COUNT(*)` scan of app.py 611-617: pending assignments past their
deadline whose lead is still Pending or Resubmitted (join on leads only). -/
def overdueJoinLeads (db : DB) : List LeadAssignment :=
  db.lead_assignments.filter (fun a =>
    a.status == AsgStatus.pending && a.deadline_at < db.now &&
      db.leads.any (fun l => l.id == a.lead_id &&
        (l.status == LeadStatus.Pending || l.status == LeadStatus.Resubmitted)))

/-- The fetch of app.py 627-638: same predicate but additionally joined on
`users` (the assignment's manager must still exist), ordered by deadline
ascending, `LIMIT 10`. -/
def overdueBatch (db : DB) : List LeadAssignment :=
  (((overdueJoinLeads db).filter (fun a =>
      db.users.any (fun u => u.id == a.manager_id))).insertionSort
    (fun a b => a.deadline_at ≤ b.deadline_at)).take 10

/-- One iteration of the sweep's per-assignment loop (app.py 642-707).  Its
first statement is
`cursor.execute('SELECT id FROM users WHERE role = %s AND id != %s ORDER BY id', (old_manager_id,))`
(app.py 649): the SQL text has two placeholders but the parameter tuple has a
single element, so the driver raises a parameter-binding error before the
statement runs, and none of the reassignment work of app.py 650-705 (new
pending assignment with a 4-hour deadline, history row, lead update, system
note, the two notifications) is ever reached. -/
def sweepProcessAssignment (_db : DB) (_a : LeadAssignment) : Except SqlError DB :=
  Except.error SqlError.parameterCountMismatch

def sweepLoop (db : DB) : List LeadAssignment → Except SqlError DB
  | [] => Except.ok db
  | a :: rest =>
    match sweepProcessAssignment db a with
    | .ok db1 => sweepLoop db1 rest
    | .error e => .error e

/-- app.py 603-717 `check_and_reassign_overdue_leads`.  Returns the new
database and the number of `commit` calls the run performed: the whole batch
runs inside one transaction committed once at app.py 709, and any exception
rolls the entire run back (app.py 713-715). -/
def check_and_reassign_overdue_leads (db : DB) : DB × Nat :=
  if (overdueJoinLeads db).length = 0 then (db, 0)
  else
    match sweepLoop db (overdueBatch db) with
    | .ok db1 => (db1, 1)
    | .error _ => (db, 0)

/-- The scan of app.py 728-756: activities with a non-null past-due
`reminder_at` and null `completed_at`, joined on leads and users. -/
def dueReminderRows (db : DB) : List LeadActivity :=
  db.lead_activities.filter (fun a =>
    a.reminder_at.isSome && a.reminder_at.getD 0 ≤ db.now &&
      a.completed_at == none &&
      db.leads.any (fun l => l.id == a.lead_id) &&
      db.users.any (fun u => u.id == a.actor_id))

/-- `ORDER BY la.reminder_at ASC LIMIT 20` (app.py 754-755). -/
def reminderBatch (db : DB) : List LeadActivity :=
  ((dueReminderRows db).insertionSort
    (fun a b => a.reminder_at.getD 0 ≤ b.reminder_at.getD 0)).take 20

/-- The dedup query of app.py 775-780: a notification for this user whose
message ends with the `[Activity #aid]` tag, created today. -/
def hasTodayReminderNotif (db : DB) (actor : Nat) (aid : Nat) : Bool :=
  db.notifications.any (fun n =>
    n.user_id == actor && msgTag n.msg == some aid && n.created_day == dayOf db.now)

/-- One iteration of the reminder loop (app.py 760-797): skip when today's
tagged notification already exists, otherwise insert one. -/
def processReminder (db : DB) (a : LeadActivity) : DB :=
  if hasTodayReminderNotif db a.actor_id a.id then db
  else { db with
    notifications := db.notifications ++
      [{ id := db.nextNotificationId, user_id := a.actor_id,
         lead_id := some a.lead_id, msg := .reminder a.id a.due_at.isSome,
         ntype := .info, created_day := dayOf db.now }],
    nextNotificationId := db.nextNotificationId + 1 }

/-- app.py 719-807 `check_and_send_activity_reminders`: the batch is fetched
once up front, then each activity is deduplicated against the evolving
notification table and the run commits at the end. -/
def check_and_send_activity_reminders (db : DB) : DB :=
  (reminderBatch db).foldl processReminder db

/-- Today's tagged reminder notifications of one user for one activity id —
the row set inspected by the dedup query of app.py 775-780. -/
def reminderTagCount (db : DB) (actor : Nat) (aid : Nat) : Nat :=
  (db.notifications.filter (fun n =>
    n.user_id == actor && msgTag n.msg == some aid &&
      n.created_day == dayOf db.now)).length

/-! ## Concrete fixtures used by witnesses and counterexamples -/

def user_admin : User := { id := 1, role := .admin }
def user_mgrA : User := { id := 2, role := .manager }
def user_mgrB : User := { id := 3, role := .manager }
def user_marketer : User := { id := 4, role := .marketer }
def user_bd : User := { id := 5, role := .bd_sales }

def emptyDB : DB :=
  { users := [], leads := [], lead_assignments := [], assignment_settings := none,
    notifications := [], lead_notes := [], lead_assignment_history := [],
    bd_assignment_history := [], lead_stage_history := [], lead_activities := [],
    pipeline_stages := [], nextLeadId := 1, nextAssignmentId := 1,
    nextNotificationId := 1, nextActivityId := 1, now := 100 }

/-- Five users (admin 1, managers 2 and 3, marketer 4, BD-sales 5) and two
pipeline stages; no leads yet. -/
def baseDB : DB :=
  { emptyDB with
    users := [user_admin, user_mgrA, user_mgrB, user_marketer, user_bd],
    pipeline_stages := [{ id := 1, position := 1 }, { id := 2, position := 2 }] }

/-- A DB with no managers at all (for the empty-pool submission scenario). -/
def noManagerDB : DB :=
  { emptyDB with users := [user_admin, user_marketer] }

def lead1Rejected : Lead :=
  { id := 1, submitted_by_user_id := 4, status := .Rejected,
    current_manager_id := some 2, assigned_bd_id := none,
    current_stage_id := none, accepted_at := none }

def rejectedLeadDB : DB := { baseDB with leads := [lead1Rejected], nextLeadId := 2 }

def lead1Pending : Lead := { lead1Rejected with status := .Pending }

def asgA : LeadAssignment :=
  { id := 1, lead_id := 1, manager_id := 2, assigned_at := 10, deadline_at := 25,
    acted_at := none, status := .pending, is_initial_assignment := true }

/-- Lead 1 Pending, manager 2's pending assignment 75 hours past its deadline
(now = 100), pool {2, 3}. -/
def overdueDB : DB :=
  { baseDB with
    leads := [lead1Pending], lead_assignments := [asgA],
    nextLeadId := 2, nextAssignmentId := 2 }

def lead2Pending : Lead := { lead1Pending with id := 2 }

def asgB : LeadAssignment :=
  { asgA with id := 2, lead_id := 2, manager_id := 3, deadline_at := 30 }

/-- Two distinct leads, both with overdue pending assignments. -/
def twoOverdueDB : DB :=
  { baseDB with
    leads := [lead1Pending, lead2Pending],
    lead_assignments := [asgA, asgB], nextLeadId := 3, nextAssignmentId := 3 }

def leadAcceptedBd : Lead :=
  { id := 1, submitted_by_user_id := 4, status := .Accepted,
    current_manager_id := some 2, assigned_bd_id := some 5,
    current_stage_id := some 1, accepted_at := some 50 }

def mkActivity (i : Nat) : LeadActivity :=
  { id := i, lead_id := 1, actor_id := 5, due_at := none, completed_at := none,
    reminder_at := some i }

/-- 21 due, uncompleted activities for BD user 5 — one more than the reminder
sweep's `LIMIT 20`. -/
def manyRemindersDB : DB :=
  { baseDB with
    leads := [leadAcceptedBd], nextLeadId := 2,
    lead_activities := (List.range 21).map (fun k => mkActivity (k + 1)),
    nextActivityId := 22 }

/-- A single due activity (reminder 99 hours past due). -/
def oneReminderDB : DB :=
  { baseDB with
    leads := [leadAcceptedBd], nextLeadId := 2,
    lead_activities := [mkActivity 1], nextActivityId := 2 }

def leadAcceptedNoBd : Lead :=
  { id := 1, submitted_by_user_id := 4, status := .Accepted,
    current_manager_id := some 2, assigned_bd_id := none,
    current_stage_id := none, accepted_at := some 50 }

/-- An Accepted lead never assigned to BD (both pairing fields null). -/
def noBdDB : DB := { baseDB with leads := [leadAcceptedNoBd], nextLeadId := 2 }

/-- The C2 counterexample run: marketer 4 submits (round-robin assigns
manager 2 a pending assignment), manager 3 — who does not hold the pending
assignment — accepts, then manager 3 reverts. -/
def c2db1 : DB := (new_lead baseDB user_marketer none).snd.fst
def c2db2 : DB := (accept_lead c2db1 user_mgrB 1).snd
def c2db3 : DB := (revert_lead c2db2 user_mgrB 1 true).snd

/-! ## Pending-assignment invariant machinery (claim C2) -/

/-- `status = 'pending' AND lead_id = lid`. -/
def pendingFor (lid : Nat) (a : LeadAssignment) : Bool :=
  a.lead_id == lid && a.status == AsgStatus.pending

/-- Pending-assignment count of one lead over an assignment table. -/
def pendingOf (asgs : List LeadAssignment) (lid : Nat) : Nat :=
  (asgs.filter (pendingFor lid)).length

/-- `SELECT COUNT(*) FROM lead_assignments WHERE lead_id = lid AND status = 'pending'`. -/
def pendingCount (db : DB) (lid : Nat) : Nat :=
  pendingOf db.lead_assignments lid

/-- The at-most-one-pending invariant over the parts of the state it reads:
id-counter well-formedness, the bound itself, and the auxiliary fact that an
Accepted lead has no pending assignment (needed for `revert`). -/
def InvT (leads : List Lead) (asgs : List LeadAssignment) (next : Nat) : Prop :=
  (∀ l ∈ leads, l.id < next) ∧ (∀ a ∈ asgs, a.lead_id < next) ∧
  (∀ lid, pendingOf asgs lid ≤ 1) ∧
  (∀ l ∈ leads, l.status = LeadStatus.Accepted → pendingOf asgs l.id = 0)

def Inv (db : DB) : Prop := InvT db.leads db.lead_assignments db.nextLeadId

/-- One lifecycle transition of claim C2 (submit, accept, reject, revert,
resubmit, automatic deadline reassignment).  The `accept` constructor carries
the restriction that the acting user holds every pending assignment of the
lead — the counterexample `C2_counterexample` shows the invariant fails
without it. -/
inductive Step : DB → DB → Prop where
  | submit (db : DB) (submitter : User) (randPick : Option Nat) :
      Step db (new_lead db submitter randPick).snd.fst
  | accept (db : DB) (actor : User) (lid : Nat)
      (hres : ∀ a ∈ db.lead_assignments, pendingFor lid a = true →
        a.manager_id = actor.id) :
      Step db (accept_lead db actor lid).snd
  | reject (db : DB) (actor : User) (lid : Nat) (c : Bool) :
      Step db (reject_lead db actor lid c).snd
  | revert (db : DB) (actor : User) (lid : Nat) (c : Bool) :
      Step db (revert_lead db actor lid c).snd
  | resubmit (db : DB) (actor : User) (lid : Nat) (c : Bool) :
      Step db (resubmit_lead db actor lid c).snd
  | deadlineSweep (db : DB) :
      Step db (check_and_reassign_overdue_leads db).fst

/-- Reflexive-transitive closure of `Step`. -/
inductive Steps : DB → DB → Prop where
  | refl (db : DB) : Steps db db
  | tail (db1 db2 db3 : DB) : Steps db1 db2 → Step db2 db3 → Steps db1 db3

theorem rrIdx_lt (pool : List Nat) (ptr : Option Nat) (hne : pool ≠ []) :
    rrIdx pool ptr < pool.length := by
  have hl : 0 < pool.length := List.length_pos.mpr hne
  cases ptr with
  | none => simpa [rrIdx] using hl
  | some q =>
    by_cases h : q ≠ 0 ∧ q ∈ pool
    · simpa [rrIdx, h] using Nat.mod_lt _ hl
    · simpa [rrIdx, h] using hl

theorem rrChoose_eq_get (pool : List Nat) (ptr : Option Nat) (hne : pool ≠ []) :
    rrChoose pool ptr = some (pool.get ⟨rrIdx pool ptr, rrIdx_lt pool ptr hne⟩) := by
  cases pool with
  | nil => exact absurd rfl hne
  | cons p rest =>
    cases ptr with
    | none => simp [rrChoose, rrIdx]
    | some q =>
      by_cases h : q ≠ 0 ∧ q ∈ (p :: rest)
      · simp only [rrChoose, rrIdx, if_pos h]
      · simp only [rrChoose, rrIdx, if_neg h]
        rfl

theorem rrIdx_get (pool : List Nat) (hnd : pool.Nodup) (h0 : 0 ∉ pool)
    (i : Nat) (hi : i < pool.length) :
    rrIdx pool (some pool[i]) = (i + 1) % pool.length := by
  have hmem : pool[i] ∈ pool := List.getElem_mem hi
  have hnz : pool[i] ≠ 0 := fun h => h0 (h ▸ hmem)
  have hidx : pool.indexOf pool[i] = i := by
    have hlt : pool.indexOf pool[i] < pool.length :=
      List.indexOf_lt_length.mpr hmem
    have hget : pool[pool.indexOf pool[i]] = pool[i] :=
      List.getElem_indexOf hlt
    exact (List.Nodup.getElem_inj_iff hnd).mp hget
  simp [rrIdx, hnz, hmem, hidx]

theorem rotate_take_succ (l : List Nat) (n k : Nat) (hk : k + 1 ≤ l.length) :
    (l.rotate n).take (k + 1) =
      l.get ⟨n % l.length, Nat.mod_lt _ (Nat.lt_of_lt_of_le (Nat.succ_pos k) hk)⟩ ::
        (l.rotate (n + 1)).take k := by
  apply List.ext_getElem
  · simp only [List.length_take, List.length_rotate, List.length_cons]
    omega
  · intro i hi1 hi2
    rcases i with _ | j
    · simp [List.getElem_take, List.getElem_rotate]
    · simp only [List.getElem_cons_succ, List.getElem_take, List.getElem_rotate,
        List.get_eq_getElem]
      congr 2
      omega

theorem rrRun_fromIdx (pool : List Nat) (hnd : pool.Nodup) (h0 : 0 ∉ pool) :
    ∀ (k i : Nat) (hi : i < pool.length), k ≤ pool.length →
      rrRun pool (some pool[i]) k = (pool.rotate (i + 1)).take k := by
  intro k
  induction k with
  | zero => intro i hi _; simp [rrRun]
  | succ m ih =>
    intro i hi hk
    have hne : pool ≠ [] := List.ne_nil_of_length_pos (Nat.lt_of_le_of_lt (Nat.zero_le _) hi)
    have hchoose := rrChoose_eq_get pool (some pool[i]) hne
    have hidx := rrIdx_get pool hnd h0 i hi
    have hlt : (i + 1) % pool.length < pool.length :=
      Nat.mod_lt _ (Nat.lt_of_le_of_lt (Nat.zero_le _) hi)
    have hstep : rrChoose pool (some pool[i]) = some pool[(i + 1) % pool.length] := by
      rw [hchoose]
      simp [hidx]
    have hrun : rrRun pool (some pool[i]) (m + 1) =
        pool[(i + 1) % pool.length] :: rrRun pool (some pool[(i + 1) % pool.length]) m := by
      simp only [rrRun, hstep]
    rw [hrun, ih ((i + 1) % pool.length) hlt (Nat.le_of_succ_le hk)]
    have hrot : pool.rotate ((i + 1) % pool.length + 1) = pool.rotate (i + 1 + 1) := by
      rw [← List.rotate_rotate, ← List.rotate_rotate, List.rotate_mod]
    rw [hrot, rotate_take_succ pool (i + 1) m hk]
    simp [List.get_eq_getElem]

theorem rrRun_eq_rotate (pool : List Nat) (hnd : pool.Nodup) (h0 : 0 ∉ pool)
    (hne : pool ≠ []) (ptr : Option Nat) :
    rrRun pool ptr pool.length = pool.rotate (rrIdx pool ptr) := by
  have hl : 0 < pool.length := List.length_pos.mpr hne
  obtain ⟨m, hm⟩ : ∃ m, pool.length = m + 1 :=
    ⟨pool.length - 1, by omega⟩
  have hj : rrIdx pool ptr < pool.length := rrIdx_lt pool ptr hne
  have hchoose := rrChoose_eq_get pool ptr hne
  have hrun : rrRun pool ptr (m + 1) =
      pool.get ⟨rrIdx pool ptr, hj⟩ ::
        rrRun pool (some (pool.get ⟨rrIdx pool ptr, hj⟩)) m := by
    simp only [rrRun, hchoose]
  have hfrom := rrRun_fromIdx pool hnd h0 m (rrIdx pool ptr) hj (by omega)
  have htake := rotate_take_succ pool (rrIdx pool ptr) m (by omega)
  have htake_all : (pool.rotate (rrIdx pool ptr)).take (m + 1) =
      pool.rotate (rrIdx pool ptr) := by
    apply List.take_of_length_le
    simp [List.length_rotate, hm]
  rw [hm, hrun]
  simp only [List.get_eq_getElem] at hfrom ⊢
  rw [hfrom, ← htake_all, htake]
  simp [List.get_eq_getElem, Nat.mod_eq_of_lt hj]

theorem rrRun_perm (pool : List Nat) (hnd : pool.Nodup) (h0 : 0 ∉ pool)
    (hne : pool ≠ []) (ptr : Option Nat) :
    (rrRun pool ptr pool.length).Perm pool := by
  rw [rrRun_eq_rotate pool hnd h0 hne ptr]
  exact List.rotate_perm pool (rrIdx pool ptr)


/-! ## Invariant-preservation lemmas for C2 -/

theorem pendingOf_append (A B : List LeadAssignment) (lid : Nat) :
    pendingOf (A ++ B) lid = pendingOf A lid + pendingOf B lid := by
  simp [pendingOf, List.filter_append]

theorem pendingOf_map_congr (A : List LeadAssignment)
    (g : LeadAssignment → LeadAssignment) (lid : Nat)
    (h : ∀ a ∈ A, pendingFor lid (g a) = pendingFor lid a) :
    pendingOf (A.map g) lid = pendingOf A lid := by
  unfold pendingOf
  rw [List.filter_map, List.length_map]
  have : List.filter (pendingFor lid ∘ g) A = List.filter (pendingFor lid) A :=
    List.filter_congr (fun a ha => h a ha)
  rw [this]

theorem pendingOf_map_zero (A : List LeadAssignment)
    (g : LeadAssignment → LeadAssignment) (lid : Nat)
    (h : ∀ a ∈ A, pendingFor lid (g a) = false) :
    pendingOf (A.map g) lid = 0 := by
  unfold pendingOf
  rw [List.filter_map, List.length_map,
    List.filter_eq_nil_iff.mpr (fun a ha => by simp [h a ha])]
  rfl

theorem pendingOf_zero_of_ids (A : List LeadAssignment) (n lid : Nat)
    (hA : ∀ a ∈ A, a.lead_id < n) (hlid : n ≤ lid) : pendingOf A lid = 0 := by
  unfold pendingOf
  rw [List.filter_eq_nil_iff.mpr ?_]
  · rfl
  · intro a ha
    have := hA a ha
    simp only [pendingFor, Bool.and_eq_true, beq_iff_eq, not_and]
    intro heq
    omega

theorem sweep_fst_eq (db : DB) : (check_and_reassign_overdue_leads db).fst = db := by
  unfold check_and_reassign_overdue_leads
  by_cases h : (overdueJoinLeads db).length = 0
  · simp [h]
  · rw [if_neg h]
    cases hb : overdueBatch db with
    | nil => simp [sweepLoop]
    | cons a rest => simp [sweepLoop, sweepProcessAssignment]

theorem acceptAsgUpd_lead_id (actorId lid now : Nat) (a : LeadAssignment) :
    (acceptAsgUpd actorId lid now a).lead_id = a.lead_id := by
  unfold acceptAsgUpd; split <;> rfl

theorem pendingFor_acceptAsgUpd_self (actorId lid now : Nat) (a : LeadAssignment)
    (hm : pendingFor lid a = true → a.manager_id = actorId) :
    pendingFor lid (acceptAsgUpd actorId lid now a) = false := by
  unfold acceptAsgUpd
  by_cases hc : (a.lead_id == lid && a.manager_id == actorId &&
      a.status == AsgStatus.pending) = true
  · rw [if_pos hc]
    simp [pendingFor]
  · rw [if_neg hc]
    by_cases hp : pendingFor lid a = true
    · have h1 : a.lead_id = lid ∧ a.status = AsgStatus.pending := by
        simpa [pendingFor] using hp
      exact absurd (by simp [h1.1, h1.2, hm hp]) hc
    · simpa using hp

theorem pendingFor_acceptAsgUpd_other (actorId lid now lid2 : Nat) (hne : lid2 ≠ lid)
    (a : LeadAssignment) :
    pendingFor lid2 (acceptAsgUpd actorId lid now a) = pendingFor lid2 a := by
  unfold acceptAsgUpd
  by_cases hc : (a.lead_id == lid && a.manager_id == actorId &&
      a.status == AsgStatus.pending) = true
  · rw [if_pos hc]
    have h1 : a.lead_id = lid := by
      simp only [Bool.and_eq_true, beq_iff_eq] at hc
      exact hc.1.1
    have hb : (lid == lid2) = false := beq_eq_false_iff_ne.mpr (Ne.symm hne)
    simp [pendingFor, h1, hb]
  · rw [if_neg hc]

theorem pendingFor_revertAsgUpd (lid lid2 : Nat) (a : LeadAssignment) :
    pendingFor lid2 (revertAsgUpd lid a) = pendingFor lid2 a := by
  unfold revertAsgUpd
  by_cases hc : (a.lead_id == lid && a.status == AsgStatus.acted) = true
  · rw [if_pos hc]
    have h2 : a.status = AsgStatus.acted := by
      simp only [Bool.and_eq_true, beq_iff_eq] at hc
      exact hc.2
    simp [pendingFor, h2]
    rfl
  · rw [if_neg hc]

theorem accept_lead_inv (db : DB) (actor : User) (lid : Nat)
    (hres : ∀ a ∈ db.lead_assignments, pendingFor lid a = true →
      a.manager_id = actor.id)
    (h : Inv db) : Inv (accept_lead db actor lid).snd := by
  unfold accept_lead
  by_cases hrole : actor.role = Role.admin ∨ actor.role = Role.manager
  · rw [if_pos hrole]
    cases hf : findLead db lid with
    | none => exact h
    | some lead =>
      obtain ⟨h1, h2, h3, h4⟩ := h
      have hzero : pendingOf (db.lead_assignments.map (acceptAsgUpd actor.id lid db.now))
          lid = 0 :=
        pendingOf_map_zero _ _ _ (fun a ha =>
          pendingFor_acceptAsgUpd_self actor.id lid db.now a (hres a ha))
      have hother : ∀ lid2, lid2 ≠ lid →
          pendingOf (db.lead_assignments.map (acceptAsgUpd actor.id lid db.now)) lid2 =
            pendingOf db.lead_assignments lid2 := fun lid2 hne =>
        pendingOf_map_congr _ _ _ (fun a _ =>
          pendingFor_acceptAsgUpd_other actor.id lid db.now lid2 hne a)
      refine ⟨?_, ?_, ?_, ?_⟩
      · intro l hl
        simp only [List.mem_map] at hl
        obtain ⟨l0, hl0, rfl⟩ := hl
        have : (acceptLeadUpd lid db.now l0).id = l0.id := by
          unfold acceptLeadUpd; split <;> rfl
        rw [this]
        exact h1 l0 hl0
      · intro a ha
        simp only [List.mem_map] at ha
        obtain ⟨a0, ha0, rfl⟩ := ha
        rw [acceptAsgUpd_lead_id]
        exact h2 a0 ha0
      · intro lid2
        by_cases hne : lid2 = lid
        · subst hne; simp [pendingCount, hzero]
        · simp only [pendingCount]
          rw [hother lid2 hne]
          exact h3 lid2
      · intro l hl hacc
        simp only [List.mem_map] at hl
        obtain ⟨l0, hl0, rfl⟩ := hl
        by_cases hid : l0.id = lid
        · have : (acceptLeadUpd lid db.now l0).id = l0.id := by
            unfold acceptLeadUpd; split <;> rfl
          rw [this, hid]
          exact hzero
        · have hup : acceptLeadUpd lid db.now l0 = l0 := by
            unfold acceptLeadUpd
            rw [if_neg (by simp [hid])]
          rw [hup] at hacc ⊢
          rw [hother l0.id hid]
          exact h4 l0 hl0 hacc
  · rw [if_neg hrole]
    exact h

theorem map_leads_ids (L : List Lead) (f : Lead → Lead) (n : Nat)
    (hid : ∀ l, (f l).id = l.id) (h : ∀ l ∈ L, l.id < n) :
    ∀ l ∈ L.map f, l.id < n := by
  intro l hl
  simp only [List.mem_map] at hl
  obtain ⟨l0, hl0, rfl⟩ := hl
  rw [hid l0]
  exact h l0 hl0

theorem rejectLeadUpd_id (lid : Nat) (l : Lead) : (rejectLeadUpd lid l).id = l.id := by
  unfold rejectLeadUpd; split <;> rfl

theorem resubmitLeadUpd_id (lid : Nat) (l : Lead) :
    (resubmitLeadUpd lid l).id = l.id := by
  unfold resubmitLeadUpd; split <;> rfl

theorem revertLeadUpd_id (lid actorId : Nat) (l : Lead) :
    (revertLeadUpd lid actorId l).id = l.id := by
  unfold revertLeadUpd; split <;> rfl

theorem reject_lead_inv (db : DB) (actor : User) (lid : Nat) (c : Bool)
    (h : Inv db) : Inv (reject_lead db actor lid c).snd := by
  unfold reject_lead
  by_cases hrole : actor.role = Role.admin ∨ actor.role = Role.manager
  · rw [if_pos hrole]
    cases hf : findLead db lid with
    | none => exact h
    | some lead =>
      by_cases hc : c = true
      · subst hc
        simp only [if_true]
        obtain ⟨h1, h2, h3, h4⟩ := h
        refine ⟨map_leads_ids _ _ _ (rejectLeadUpd_id lid) h1, h2, h3, ?_⟩
        intro l hl hacc
        simp only [List.mem_map] at hl
        obtain ⟨l0, hl0, rfl⟩ := hl
        rw [rejectLeadUpd_id]
        by_cases hid : l0.id = lid
        · exfalso
          revert hacc
          unfold rejectLeadUpd
          rw [if_pos (by simp [hid])]
          simp
        · have hup : rejectLeadUpd lid l0 = l0 := by
            unfold rejectLeadUpd
            rw [if_neg (by simp [hid])]
          rw [hup] at hacc
          exact h4 l0 hl0 hacc
      · have : c = false := by revert hc; cases c <;> simp
        subst this
        simpa using h
  · rw [if_neg hrole]
    exact h

theorem resubmit_lead_inv (db : DB) (actor : User) (lid : Nat) (c : Bool)
    (h : Inv db) : Inv (resubmit_lead db actor lid c).snd := by
  unfold resubmit_lead
  by_cases hrole : actor.role = Role.marketer ∨ actor.role = Role.manager
  · rw [if_pos hrole]
    cases hf : findLead db lid with
    | none => exact h
    | some lead =>
      dsimp only
      by_cases hsub : lead.submitted_by_user_id ≠ actor.id
      · rw [if_pos hsub]; exact h
      · rw [if_neg hsub]
        by_cases hst : lead.status ≠ LeadStatus.Rejected
        · rw [if_pos hst]; exact h
        · rw [if_neg hst]
          by_cases hc : c = true
          · subst hc
            simp only [if_true]
            obtain ⟨h1, h2, h3, h4⟩ := h
            refine ⟨map_leads_ids _ _ _ (resubmitLeadUpd_id lid) h1, h2, h3, ?_⟩
            intro l hl hacc
            simp only [List.mem_map] at hl
            obtain ⟨l0, hl0, rfl⟩ := hl
            rw [resubmitLeadUpd_id]
            by_cases hid : l0.id = lid
            · exfalso
              revert hacc
              unfold resubmitLeadUpd
              rw [if_pos (by simp [hid])]
              simp
            · have hup : resubmitLeadUpd lid l0 = l0 := by
                unfold resubmitLeadUpd
                rw [if_neg (by simp [hid])]
              rw [hup] at hacc
              exact h4 l0 hl0 hacc
          · have : c = false := by revert hc; cases c <;> simp
            subst this
            rw [if_neg (by simp)]
            exact h
  · rw [if_neg hrole]
    exact h

theorem pendingOf_singleton (row : LeadAssignment) (lid : Nat) :
    pendingOf [row] lid = if row.lead_id = lid ∧ row.status = AsgStatus.pending
      then 1 else 0 := by
  by_cases hc : row.lead_id = lid ∧ row.status = AsgStatus.pending
  · rw [if_pos hc]
    simp [pendingOf, pendingFor, hc.1, hc.2]
  · rw [if_neg hc]
    simp only [pendingOf, pendingFor]
    rw [List.filter_eq_nil_iff.mpr ?_]
    · rfl
    · intro a ha
      simp only [List.mem_singleton] at ha
      subst ha
      intro hcon
      rcases (Bool.and_eq_true _ _) ▸ hcon with ⟨hl, hs⟩
      exact hc ⟨by simpa using hl, by simpa using hs⟩

theorem revert_lead_inv (db : DB) (actor : User) (lid : Nat) (c : Bool)
    (h : Inv db) : Inv (revert_lead db actor lid c).snd := by
  unfold revert_lead
  by_cases hrole : actor.role = Role.admin ∨ actor.role = Role.manager
  · rw [if_pos hrole]
    cases hf : findLead db lid with
    | none => exact h
    | some lead =>
      dsimp only
      by_cases hst : lead.status ≠ LeadStatus.Accepted
      · rw [if_pos hst]; exact h
      · rw [if_neg hst]
        push_neg at hst
        by_cases hc : c = true
        · subst hc
          simp only [if_true]
          obtain ⟨h1, h2, h3, h4⟩ := h
          have hmem : lead ∈ db.leads := List.mem_of_find?_eq_some hf
          have hlid : lead.id = lid := by
            have := List.find?_some hf
            simpa using this
          have hzero : pendingOf db.lead_assignments lid = 0 := by
            rw [← hlid]; exact h4 lead hmem hst
          have hcongr : ∀ lid2,
              pendingOf (db.lead_assignments.map (revertAsgUpd lid)) lid2 =
                pendingOf db.lead_assignments lid2 := fun lid2 =>
            pendingOf_map_congr _ _ _ (fun a _ => pendingFor_revertAsgUpd lid lid2 a)
          refine ⟨map_leads_ids _ _ _ (revertLeadUpd_id lid actor.id) h1, ?_, ?_, ?_⟩
          · intro a ha
            rw [List.mem_append] at ha
            cases ha with
            | inl ha =>
              simp only [List.mem_map] at ha
              obtain ⟨a0, ha0, rfl⟩ := ha
              have : (revertAsgUpd lid a0).lead_id = a0.lead_id := by
                unfold revertAsgUpd; split <;> rfl
              rw [this]
              exact h2 a0 ha0
            | inr ha =>
              simp only [List.mem_singleton] at ha
              subst ha
              simp only
              rw [← hlid]
              exact h1 lead hmem
          · intro lid2
            rw [pendingOf_append, hcongr lid2, pendingOf_singleton]
            by_cases hid : lid = lid2
            · subst hid
              rw [hzero, if_pos (by exact ⟨rfl, rfl⟩)]
            · rw [if_neg (by simp [hid])]
              simpa using h3 lid2
          · intro l hl hacc
            simp only [List.mem_map] at hl
            obtain ⟨l0, hl0, rfl⟩ := hl
            rw [revertLeadUpd_id]
            by_cases hid : l0.id = lid
            · exfalso
              revert hacc
              unfold revertLeadUpd
              rw [if_pos (by simp [hid])]
              simp
            · have hup : revertLeadUpd lid actor.id l0 = l0 := by
                unfold revertLeadUpd
                rw [if_neg (by simp [hid])]
              rw [hup] at hacc
              rw [pendingOf_append, hcongr l0.id, pendingOf_singleton,
                if_neg (by simp only [not_and]; intro he; exact absurd he.symm hid), h4 l0 hl0 hacc]
        · have : c = false := by revert hc; cases c <;> simp
          subst this
          rw [if_neg (by simp)]
          exact h
  · rw [if_neg hrole]
    exact h

theorem newLeadAllocate_frame (db : DB) (u : User) (rp : Option Nat) :
    (newLeadAllocate db u rp).snd.leads = db.leads ∧
    (newLeadAllocate db u rp).snd.lead_assignments = db.lead_assignments ∧
    (newLeadAllocate db u rp).snd.nextLeadId = db.nextLeadId := by
  unfold newLeadAllocate
  by_cases h : u.role = Role.marketer
  · rw [if_pos h]
    cases rrChoose (managerPool db) (settingsLastManager db) <;> exact ⟨rfl, rfl, rfl⟩
  · rw [if_neg h]
    exact ⟨rfl, rfl, rfl⟩

theorem InvT_submit (L : List Lead) (A : List LeadAssignment) (next : Nat)
    (h : InvT L A next) (nl : Lead) (hid : nl.id = next) :
    InvT (L ++ [nl]) A (next + 1) := by
  obtain ⟨h1, h2, h3, h4⟩ := h
  refine ⟨?_, fun a ha => Nat.lt_succ_of_lt (h2 a ha), h3, ?_⟩
  · intro l hl
    rw [List.mem_append] at hl
    cases hl with
    | inl hl => exact Nat.lt_succ_of_lt (h1 l hl)
    | inr hl =>
      simp only [List.mem_singleton] at hl
      subst hl
      omega
  · intro l hl hacc
    rw [List.mem_append] at hl
    cases hl with
    | inl hl => exact h4 l hl hacc
    | inr hl =>
      simp only [List.mem_singleton] at hl
      subst hl
      rw [hid]
      exact pendingOf_zero_of_ids A next next h2 (le_refl next)

theorem InvT_submit_asg (L : List Lead) (A : List LeadAssignment) (next : Nat)
    (h : InvT L A next) (nl : Lead) (hid : nl.id = next)
    (hst : nl.status = LeadStatus.Pending)
    (row : LeadAssignment) (hrow : row.lead_id = next) :
    InvT (L ++ [nl]) (A ++ [row]) (next + 1) := by
  obtain ⟨h1, h2, h3, h4⟩ := h
  have hz : pendingOf A next = 0 := pendingOf_zero_of_ids A next next h2 (le_refl next)
  refine ⟨?_, ?_, ?_, ?_⟩
  · intro l hl
    rw [List.mem_append] at hl
    cases hl with
    | inl hl => exact Nat.lt_succ_of_lt (h1 l hl)
    | inr hl =>
      simp only [List.mem_singleton] at hl
      subst hl
      omega
  · intro a ha
    rw [List.mem_append] at ha
    cases ha with
    | inl ha => exact Nat.lt_succ_of_lt (h2 a ha)
    | inr ha =>
      simp only [List.mem_singleton] at ha
      subst ha
      omega
  · intro lid
    rw [pendingOf_append, pendingOf_singleton]
    by_cases he : row.lead_id = lid ∧ row.status = AsgStatus.pending
    · rw [if_pos he]
      have hln : lid = next := by rw [← he.1, hrow]
      subst hln
      rw [hz]
    · rw [if_neg he]
      simpa using h3 lid
  · intro l hl hacc
    rw [List.mem_append] at hl
    cases hl with
    | inl hl =>
      rw [pendingOf_append, pendingOf_singleton,
        if_neg (fun he => by have := h1 l hl; omega), h4 l hl hacc]
    | inr hl =>
      simp only [List.mem_singleton] at hl
      subst hl
      rw [hst] at hacc
      exact absurd hacc (by simp)

theorem new_lead_inv (db : DB) (u : User) (rp : Option Nat) (h : Inv db) :
    Inv (new_lead db u rp).snd.fst := by
  unfold new_lead
  by_cases hrole : u.role = Role.marketer ∨ u.role = Role.manager
  · rw [if_pos hrole]
    obtain ⟨hL, hA, hN⟩ := newLeadAllocate_frame db u rp
    dsimp only
    cases hc : (newLeadAllocate db u rp).fst with
    | none =>
      dsimp only [Inv]
      rw [hL, hA, hN]
      exact InvT_submit db.leads db.lead_assignments db.nextLeadId h _ rfl
    | some m =>
      dsimp only [Inv]
      rw [hL, hA, hN]
      exact InvT_submit_asg db.leads db.lead_assignments db.nextLeadId h _ rfl rfl _ rfl
  · rw [if_neg hrole]
    exact h

theorem newLeadAllocate_marketer_fst (db : DB) (u : User) (rp : Option Nat)
    (h : u.role = Role.marketer) :
    (newLeadAllocate db u rp).fst =
      rrChoose (managerPool db) (settingsLastManager db) := by
  unfold newLeadAllocate
  rw [if_pos h]
  cases rrChoose (managerPool db) (settingsLastManager db) <;> rfl

theorem newLeadAllocate_frame2 (db : DB) (u : User) (rp : Option Nat) :
    (newLeadAllocate db u rp).snd.lead_notes = db.lead_notes ∧
    (newLeadAllocate db u rp).snd.notifications = db.notifications ∧
    (newLeadAllocate db u rp).snd.nextAssignmentId = db.nextAssignmentId ∧
    (newLeadAllocate db u rp).snd.nextNotificationId = db.nextNotificationId ∧
    (newLeadAllocate db u rp).snd.now = db.now := by
  unfold newLeadAllocate
  by_cases h : u.role = Role.marketer
  · rw [if_pos h]
    cases rrChoose (managerPool db) (settingsLastManager db) <;>
      exact ⟨rfl, rfl, rfl, rfl, rfl⟩
  · rw [if_neg h]
    exact ⟨rfl, rfl, rfl, rfl, rfl⟩

theorem step_preserves_inv (db db2 : DB) (hstep : Step db db2) (h : Inv db) :
    Inv db2 := by
  cases hstep with
  | submit u rp => exact new_lead_inv db u rp h
  | accept actor lid hres => exact accept_lead_inv db actor lid hres h
  | reject actor lid c => exact reject_lead_inv db actor lid c h
  | revert actor lid c => exact revert_lead_inv db actor lid c h
  | resubmit actor lid c => exact resubmit_lead_inv db actor lid c h
  | deadlineSweep => rw [sweep_fst_eq]; exact h

theorem steps_preserve_inv (db db2 : DB) (hs : Steps db db2) (h : Inv db) :
    Inv db2 := by
  induction hs with
  | refl => exact h
  | tail dbM dbN _ hstep ih => exact step_preserves_inv dbM dbN hstep ih

theorem find?_map_id_preserving (L : List Lead) (lid : Nat) (f : Lead → Lead)
    (hid : ∀ l, (f l).id = l.id) :
    (L.map f).find? (fun l => l.id == lid) =
      (L.find? (fun l => l.id == lid)).map f := by
  induction L with
  | nil => rfl
  | cons x xs ih =>
    simp only [List.map_cons, List.find?, hid x]
    cases hx : (x.id == lid) with
    | true => rfl
    | false => exact ih

/-! ## Reminder-sweep lemmas for C6 -/

theorem processReminder_frame (db : DB) (a : LeadActivity) :
    (processReminder db a).users = db.users ∧
    (processReminder db a).leads = db.leads ∧
    (processReminder db a).lead_activities = db.lead_activities ∧
    (processReminder db a).now = db.now := by
  unfold processReminder
  split <;> exact ⟨rfl, rfl, rfl, rfl⟩

theorem foldReminders_frame (L : List LeadActivity) (db : DB) :
    ((L.foldl processReminder db).users = db.users ∧
     (L.foldl processReminder db).leads = db.leads ∧
     (L.foldl processReminder db).lead_activities = db.lead_activities ∧
     (L.foldl processReminder db).now = db.now) := by
  induction L generalizing db with
  | nil => exact ⟨rfl, rfl, rfl, rfl⟩
  | cons b bs ih =>
    rw [List.foldl_cons]
    obtain ⟨h1, h2, h3, h4⟩ := ih (processReminder db b)
    obtain ⟨g1, g2, g3, g4⟩ := processReminder_frame db b
    exact ⟨h1.trans g1, h2.trans g2, h3.trans g3, h4.trans g4⟩

theorem reminderBatch_congr (db1 db2 : DB)
    (hu : db1.users = db2.users) (hl : db1.leads = db2.leads)
    (ha : db1.lead_activities = db2.lead_activities)
    (hn : db1.now = db2.now) :
    reminderBatch db1 = reminderBatch db2 := by
  unfold reminderBatch dueReminderRows
  rw [hu, hl, ha, hn]

theorem hasToday_iff_tagCount (db : DB) (act aid : Nat) :
    hasTodayReminderNotif db act aid = true ↔
      reminderTagCount db act aid ≠ 0 := by
  unfold hasTodayReminderNotif reminderTagCount
  rw [List.any_eq_true]
  constructor
  · rintro ⟨x, hx, hpx⟩ hlen
    rw [List.length_eq_zero] at hlen
    exact absurd hpx (by simpa using List.filter_eq_nil_iff.mp hlen x hx)
  · intro hlen
    rcases List.exists_mem_of_length_pos (Nat.pos_of_ne_zero hlen) with ⟨x, hx⟩
    rcases List.mem_filter.mp hx with ⟨hmem, hp⟩
    exact ⟨x, hmem, hp⟩

theorem processReminder_skip (db : DB) (b : LeadActivity)
    (h : reminderTagCount db b.actor_id b.id ≠ 0) :
    processReminder db b = db := by
  unfold processReminder
  rw [if_pos ((hasToday_iff_tagCount db b.actor_id b.id).mpr h)]

theorem reminderTagCount_processReminder_other (db : DB) (b : LeadActivity)
    (act aid : Nat) (hne : b.id ≠ aid) :
    reminderTagCount (processReminder db b) act aid =
      reminderTagCount db act aid := by
  unfold processReminder
  split
  · rfl
  · show reminderTagCount
      { db with
        notifications := db.notifications ++
          [{ id := db.nextNotificationId, user_id := b.actor_id,
             lead_id := some b.lead_id, msg := .reminder b.id b.due_at.isSome,
             ntype := .info, created_day := dayOf db.now }],
        nextNotificationId := db.nextNotificationId + 1 } act aid = _
    unfold reminderTagCount
    dsimp only
    rw [List.filter_append, List.length_append]
    have hone : List.filter (fun n =>
        n.user_id == act && msgTag n.msg == some aid &&
          n.created_day == dayOf db.now)
        [({ id := db.nextNotificationId, user_id := b.actor_id,
            lead_id := some b.lead_id,
            msg := Msg.reminder b.id b.due_at.isSome,
            ntype := NotifType.info,
            created_day := dayOf db.now } : Notification)] = [] := by
      rw [List.filter_eq_nil_iff]
      intro x hx
      simp only [List.mem_singleton] at hx
      subst hx
      simp [msgTag, hne]
    rw [hone]
    rfl

theorem reminderTagCount_processReminder_self_new (db : DB) (b : LeadActivity)
    (hzero : reminderTagCount db b.actor_id b.id = 0) :
    reminderTagCount (processReminder db b) b.actor_id b.id = 1 := by
  unfold processReminder
  rw [if_neg ?_]
  · show reminderTagCount
      { db with
        notifications := db.notifications ++
          [{ id := db.nextNotificationId, user_id := b.actor_id,
             lead_id := some b.lead_id, msg := .reminder b.id b.due_at.isSome,
             ntype := .info, created_day := dayOf db.now }],
        nextNotificationId := db.nextNotificationId + 1 } b.actor_id b.id = 1
    unfold reminderTagCount
    show (List.filter _ (db.notifications ++ _)).length = 1
    rw [List.filter_append, List.length_append]
    unfold reminderTagCount at hzero
    rw [hzero]
    simp [msgTag]
  · intro hcon
    exact ((hasToday_iff_tagCount db b.actor_id b.id).mp hcon) hzero

theorem foldReminders_other (L : List LeadActivity) (db : DB) (act aid : Nat)
    (h : ∀ b ∈ L, b.id ≠ aid) :
    reminderTagCount (L.foldl processReminder db) act aid =
      reminderTagCount db act aid := by
  induction L generalizing db with
  | nil => rfl
  | cons b bs ih =>
    rw [List.foldl_cons,
      ih (processReminder db b) (fun x hx => h x (List.mem_cons_of_mem b hx)),
      reminderTagCount_processReminder_other db b act aid
        (h b (List.mem_cons_self b bs))]

theorem foldReminders_run (db : DB) (pre post : List LeadActivity)
    (a : LeadActivity)
    (hpre : ∀ b ∈ pre, b.id ≠ a.id) (hpost : ∀ b ∈ post, b.id ≠ a.id) :
    reminderTagCount ((pre ++ a :: post).foldl processReminder db)
        a.actor_id a.id =
      if reminderTagCount db a.actor_id a.id = 0 then 1
      else reminderTagCount db a.actor_id a.id := by
  rw [List.foldl_append, List.foldl_cons]
  have hdb1 : reminderTagCount (pre.foldl processReminder db) a.actor_id a.id =
      reminderTagCount db a.actor_id a.id :=
    foldReminders_other pre db a.actor_id a.id hpre
  by_cases hz : reminderTagCount db a.actor_id a.id = 0
  · rw [if_pos hz]
    rw [foldReminders_other post _ a.actor_id a.id hpost]
    exact reminderTagCount_processReminder_self_new _ a (hdb1.trans hz)
  · rw [if_neg hz]
    rw [processReminder_skip _ a (by rw [hdb1]; exact hz)]
    rw [foldReminders_other post _ a.actor_id a.id hpost]
    exact hdb1

/-! ## Claim theorems -/

/-- C1: Round-robin manager selection — over an ascending-id candidate pool,
a null or stale pointer restarts at the first (smallest-id) candidate,
otherwise the candidate immediately after the pointer is chosen with
wrap-around; `get_next_manager_for_assignment` then stores the chosen id as
the new pointer, and `N` consecutive selections over a fixed pool of `N` ids
visit every id exactly once (the run is a permutation of the pool). -/
theorem C1_round_robin_selection (pool : List Nat) (hs : List.Sorted (· < ·) pool)
    (h0 : 0 ∉ pool) (hne : pool ≠ []) :
    (rrChoose pool none = some (pool.get ⟨0, List.length_pos.mpr hne⟩)) ∧
    (∀ q, q ∉ pool →
      rrChoose pool (some q) = some (pool.get ⟨0, List.length_pos.mpr hne⟩)) ∧
    (∀ i (hi : i < pool.length),
      rrChoose pool (some pool[i]) =
        some (pool.get ⟨(i + 1) % pool.length, Nat.mod_lt _ (List.length_pos.mpr hne)⟩)) ∧
    (∀ ptr, (rrRun pool ptr pool.length).Perm pool) ∧
    (∀ db nid, (get_next_manager_for_assignment db).fst = some nid →
      settingsLastManager (get_next_manager_for_assignment db).snd = some nid) := by
  have hnd : pool.Nodup := hs.nodup
  refine ⟨?_, ?_, ?_, ?_, ?_⟩
  · cases pool with
    | nil => exact absurd rfl hne
    | cons p rest => rfl
  · intro q hq
    cases pool with
    | nil => exact absurd rfl hne
    | cons p rest =>
      have : ¬(q ≠ 0 ∧ q ∈ (p :: rest)) := fun h => hq h.2
      simp only [rrChoose, if_neg this]
      rfl
  · intro i hi
    rw [rrChoose_eq_get pool (some pool[i]) hne]
    simp [rrIdx_get pool hnd h0 i hi]
  · intro ptr
    exact rrRun_perm pool hnd h0 hne ptr
  · intro db nid h
    simp only [get_next_manager_for_assignment] at h ⊢
    cases hc : rrChoose (managerPool db) (settingsLastManager db) with
    | none => rw [hc] at h; simp at h
    | some m =>
      rw [hc] at h
      simp at h
      simp [settingsLastManager]
      exact h

/-- Witness for C1 at the pool `[2, 3, 5]` with the pointer at `3`. -/
theorem C1_round_robin_selection_witness :
    List.Sorted (· < ·) [2, 3, 5] ∧ (rrRun [2, 3, 5] (some 3) 3).Perm [2, 3, 5] :=
  ⟨by decide,
    (C1_round_robin_selection [2, 3, 5] (by decide) (by decide)
      (by decide)).2.2.2.1 (some 3)⟩

/-- C2 (amended): the count of pending LeadAssignment rows of a lead never
exceeds 1 under any sequence of transitions (submit, accept, reject, revert,
resubmit, deadline sweep), **provided** every accept is performed by a user
holding all of that lead's pending assignments.  Without that proviso the
bound fails (`C2_counterexample`): the original claim quantified over all
sequences, but `accept_lead` by an admin or a different manager leaves the
pending row untouched and a subsequent revert inserts a second pending row. -/
theorem C2_at_most_one_pending (db db2 : DB) (h : Inv db) (hs : Steps db db2)
    (lid : Nat) : pendingCount db2 lid ≤ 1 :=
  (steps_preserve_inv db db2 hs h).2.2.1 lid

/-- C2 counterexample: marketer 4 submits (round-robin gives manager 2 the
pending assignment), manager 3 accepts (legal: any admin/manager may), then
manager 3 reverts — the lead ends with two pending assignment rows. -/
theorem C2_counterexample :
    (new_lead baseDB user_marketer none).fst = Res.ok ∧
    (accept_lead c2db1 user_mgrB 1).fst = Res.ok ∧
    (revert_lead c2db2 user_mgrB 1 true).fst = Res.ok ∧
    pendingCount c2db3 1 = 2 := by decide

/-- Witness for C2 at the concrete initial database. -/
theorem C2_at_most_one_pending_witness : pendingCount baseDB 1 ≤ 1 :=
  C2_at_most_one_pending baseDB baseDB
    ⟨fun l hl => absurd hl (List.not_mem_nil l),
     fun a ha => absurd ha (List.not_mem_nil a),
     fun _ => Nat.zero_le 1,
     fun l hl => absurd hl (List.not_mem_nil l)⟩
    (Steps.refl baseDB) 1

/-- C3 (amended): `accept_lead` and `reject_lead` perform **no** state-machine
check: invoked by any admin/manager on any existing lead — whatever its
current status — accept sets the status to Accepted (with `accepted_at`) and
reject (with a valid comment) sets it to Rejected, each appending one note
and one notification; no `InvalidState` outcome exists for these two events.
The original claim (illegal source states are rejected with no writes) fails:
see `C3_counterexample`. -/
theorem C3_accept_reject_no_status_check (db : DB) (actor : User) (lid : Nat)
    (lead : Lead) (hrole : actor.role = Role.admin ∨ actor.role = Role.manager)
    (hfind : findLead db lid = some lead) :
    ((accept_lead db actor lid).fst = Res.ok ∧
      (accept_lead db actor lid).snd.leads =
        db.leads.map (acceptLeadUpd lid db.now) ∧
      (accept_lead db actor lid).snd.lead_notes.length =
        db.lead_notes.length + 1 ∧
      (accept_lead db actor lid).snd.notifications.length =
        db.notifications.length + 1) ∧
    ((reject_lead db actor lid true).fst = Res.ok ∧
      (reject_lead db actor lid true).snd.leads =
        db.leads.map (rejectLeadUpd lid) ∧
      (reject_lead db actor lid true).snd.lead_notes.length =
        db.lead_notes.length + 1 ∧
      (reject_lead db actor lid true).snd.notifications.length =
        db.notifications.length + 1) := by
  constructor
  · unfold accept_lead
    rw [if_pos hrole, hfind]
    exact ⟨rfl, rfl, by simp, by simp⟩
  · unfold reject_lead
    rw [if_pos hrole, hfind]
    exact ⟨rfl, rfl, by simp, by simp⟩

/-- C3 counterexample: accepting a Rejected lead (an illegal source state per
the claim) does not return `InvalidState`; it succeeds, flips the status to
Accepted and writes a note. -/
theorem C3_counterexample :
    (findLead rejectedLeadDB 1).map Lead.status = some LeadStatus.Rejected ∧
    (accept_lead rejectedLeadDB user_mgrA 1).fst ≠ Res.invalidState ∧
    (findLead (accept_lead rejectedLeadDB user_mgrA 1).snd 1).map Lead.status =
      some LeadStatus.Accepted ∧
    (accept_lead rejectedLeadDB user_mgrA 1).snd.lead_notes ≠
      rejectedLeadDB.lead_notes := by decide

/-- Witness for C3 at the Rejected-lead fixture. -/
theorem C3_accept_reject_no_status_check_witness :
    (accept_lead rejectedLeadDB user_mgrA 1).fst = Res.ok ∧
    (reject_lead rejectedLeadDB user_mgrA 1 true).fst = Res.ok :=
  ⟨(C3_accept_reject_no_status_check rejectedLeadDB user_mgrA 1 lead1Rejected
      (Or.inr rfl) (by decide)).1.1,
   (C3_accept_reject_no_status_check rejectedLeadDB user_mgrA 1 lead1Rejected
      (Or.inr rfl) (by decide)).2.1⟩

/-- C4: the deadline sweep never performs its reassignment.  On the scenario
input (lead 1 Pending, manager 2's pending assignment past its deadline, pool
{2, 3}) the overdue scan finds the row, but the first statement of the
per-assignment loop (app.py 649) binds one parameter to a two-placeholder
query, raising before anything runs; the handler rolls the run back, so no
new assignment, history row, note or notification is created and
`current_manager_id` stays untouched. -/
theorem C4_sweep_parameter_bug :
    (overdueJoinLeads overdueDB).length = 1 ∧
    overdueBatch overdueDB = [asgA] ∧
    sweepLoop overdueDB (overdueBatch overdueDB) =
      Except.error SqlError.parameterCountMismatch ∧
    check_and_reassign_overdue_leads overdueDB = (overdueDB, 0) := by decide

/-- C5 (amended): the deadline sweep runs the whole batch inside a single
transaction — at most one commit per run, never one per lead — and any
failure while processing a lead rolls the entire run back, leaving the
database unchanged (with the app.py 649 parameter bug every run that reaches
the loop fails, so the sweep never changes the database at all). -/
theorem C5_sweep_single_transaction (db : DB) :
    (check_and_reassign_overdue_leads db).snd ≤ 1 ∧
    (check_and_reassign_overdue_leads db).fst = db := by
  refine ⟨?_, sweep_fst_eq db⟩
  unfold check_and_reassign_overdue_leads
  by_cases h : (overdueJoinLeads db).length = 0
  · simp [h]
  · rw [if_neg h]
    cases sweepLoop db (overdueBatch db) <;> simp

/-- C5 counterexample: with two overdue leads, the run performs zero commits
(the claim requires one commit per lead) and the failure on the first lead
prevents the second lead's reassignment — the database is unchanged. -/
theorem C5_counterexample :
    (overdueJoinLeads twoOverdueDB).length = 2 ∧
    (check_and_reassign_overdue_leads twoOverdueDB).snd = 0 ∧
    (check_and_reassign_overdue_leads twoOverdueDB).fst = twoOverdueDB := by
  decide

/-- C10: `accept_lead` marks as acted only rows whose `manager_id` equals the
accepting user: any assignment row of the lead held by a different manager is
carried over completely unchanged (same status, same null `acted_at`), while
the lead's status still becomes Accepted. -/
theorem C10_accept_frames_other_rows (db : DB) (actor : User) (lid : Nat)
    (lead : Lead) (a : LeadAssignment)
    (hrole : actor.role = Role.admin ∨ actor.role = Role.manager)
    (hfind : findLead db lid = some lead)
    (ha : a ∈ db.lead_assignments) (hne : a.manager_id ≠ actor.id) :
    acceptAsgUpd actor.id lid db.now a = a ∧
    a ∈ (accept_lead db actor lid).snd.lead_assignments ∧
    (accept_lead db actor lid).snd.leads =
      db.leads.map (acceptLeadUpd lid db.now) := by
  have hupd : acceptAsgUpd actor.id lid db.now a = a := by
    unfold acceptAsgUpd
    rw [if_neg ?_]
    intro hc
    rcases Bool.and_eq_true _ _ ▸ hc with ⟨hc1, _⟩
    rcases Bool.and_eq_true _ _ ▸ hc1 with ⟨_, hm⟩
    exact hne (by simpa using hm)
  refine ⟨hupd, ?_, ?_⟩
  · have hmem : acceptAsgUpd actor.id lid db.now a ∈
        db.lead_assignments.map (acceptAsgUpd actor.id lid db.now) :=
      List.mem_map_of_mem _ ha
    rw [hupd] at hmem
    unfold accept_lead
    rw [if_pos hrole, hfind]
    exact hmem
  · unfold accept_lead
    rw [if_pos hrole, hfind]

/-- Witness for C10: admin 1 accepts lead 1 whose pending assignment belongs
to manager 2; the row stays pending with null `acted_at`. -/
theorem C10_accept_frames_other_rows_witness :
    asgA ∈ (accept_lead overdueDB user_admin 1).snd.lead_assignments ∧
    asgA.status = AsgStatus.pending ∧ asgA.acted_at = none :=
  ⟨(C10_accept_frames_other_rows overdueDB user_admin 1 lead1Pending asgA
      (Or.inl rfl) (by decide) (by decide) (by decide)).2.1,
   rfl, rfl⟩

/-- C8: `resubmit_lead` (with a valid comment) succeeds exactly when the
actor is the lead's original submitter and the status is Rejected; it then
sets the status to Resubmitted, writes the resubmission note, and notifies
exactly the admin/manager users; calling it again immediately fails with
`InvalidState` because the status is now Resubmitted, not Rejected. -/
theorem C8_resubmit_guard (db : DB) (actor : User) (lid : Nat) (lead : Lead)
    (hrole : actor.role = Role.marketer ∨ actor.role = Role.manager)
    (hfind : findLead db lid = some lead) :
    ((resubmit_lead db actor lid true).fst = Res.ok ↔
      (lead.submitted_by_user_id = actor.id ∧
        lead.status = LeadStatus.Rejected)) ∧
    (lead.submitted_by_user_id = actor.id → lead.status = LeadStatus.Rejected →
      ((findLead (resubmit_lead db actor lid true).snd lid).map Lead.status =
          some LeadStatus.Resubmitted ∧
        (resubmit_lead db actor lid true).snd.lead_notes.length =
          db.lead_notes.length + 1 ∧
        (resubmit_lead db actor lid true).snd.notifications.length =
          db.notifications.length + (adminManagerIds db).length ∧
        (resubmit_lead (resubmit_lead db actor lid true).snd actor lid
          true).fst = Res.invalidState)) := by
  have hlid : lead.id = lid := by
    have := List.find?_some hfind
    simpa using this
  unfold resubmit_lead
  rw [if_pos hrole, hfind]
  dsimp only
  by_cases hsub : lead.submitted_by_user_id ≠ actor.id
  · rw [if_pos hsub]
    constructor
    · constructor
      · intro habs; cases habs
      · intro ⟨h1, _⟩; exact absurd h1 hsub
    · intro h1 _; exact absurd h1 hsub
  · rw [if_neg hsub]
    by_cases hst : lead.status ≠ LeadStatus.Rejected
    · rw [if_pos hst]
      constructor
      · constructor
        · intro habs; cases habs
        · intro ⟨_, h2⟩; exact absurd h2 hst
      · intro _ h2; exact absurd h2 hst
    · rw [if_neg hst, if_pos rfl]
      have hfind2 : findLead
          { db with
            leads := db.leads.map (resubmitLeadUpd lid),
            lead_notes := db.lead_notes ++
              [{ lead_id := lid, author_user_id := actor.id,
                 note_type := .resubmission, msg := .leadResubmitted }],
            notifications := db.notifications ++
              (adminManagerIds db).enum.map (fun p =>
                { id := db.nextNotificationId + p.fst, user_id := p.snd,
                  lead_id := some lid, msg := .leadResubmitted, ntype := .info,
                  created_day := dayOf db.now }),
            nextNotificationId :=
              db.nextNotificationId + (adminManagerIds db).length } lid =
          some (resubmitLeadUpd lid lead) := by
        unfold findLead
        show (db.leads.map (resubmitLeadUpd lid)).find? (fun l => l.id == lid) = _
        rw [find?_map_id_preserving db.leads lid (resubmitLeadUpd lid)
          (resubmitLeadUpd_id lid)]
        unfold findLead at hfind
        rw [hfind]
        rfl
      have hupd : resubmitLeadUpd lid lead =
          { lead with status := .Resubmitted } := by
        unfold resubmitLeadUpd
        rw [if_pos (by simp [hlid])]
      refine ⟨⟨fun _ => ⟨not_ne_iff.mp hsub, not_ne_iff.mp hst⟩, fun _ => rfl⟩, ?_⟩
      intro h1 _
      refine ⟨?_, by simp, ?_, ?_⟩
      · show (findLead _ lid).map Lead.status = some LeadStatus.Resubmitted
        rw [hfind2, hupd]
        rfl
      · show (db.notifications ++ _).length = _
        rw [List.length_append, List.length_map, List.enum_length]
      · show (if actor.role = Role.marketer ∨ actor.role = Role.manager then _
          else (Res.forbidden, _)).fst = Res.invalidState
        rw [if_pos hrole]
        dsimp only
        rw [hfind2, hupd]
        dsimp only
        rw [if_neg (not_ne_iff.mpr h1)]
        rw [if_pos (by simp)]

/-- Witness for C8: marketer 4 resubmits their Rejected lead 1 on the
concrete fixture; the call succeeds and an immediate second call returns
`InvalidState`. -/
theorem C8_resubmit_guard_witness :
    ((resubmit_lead rejectedLeadDB user_marketer 1 true).fst = Res.ok ↔
      (lead1Rejected.submitted_by_user_id = user_marketer.id ∧
        lead1Rejected.status = LeadStatus.Rejected)) ∧
    (resubmit_lead (resubmit_lead rejectedLeadDB user_marketer 1 true).snd
      user_marketer 1 true).fst = Res.invalidState :=
  ⟨(C8_resubmit_guard rejectedLeadDB user_marketer 1 lead1Rejected
      (Or.inl rfl) (by decide)).1,
   ((C8_resubmit_guard rejectedLeadDB user_marketer 1 lead1Rejected
      (Or.inl rfl) (by decide)).2 rfl rfl).2.2.2⟩

/-- C9 (amended): `assign_bd_sales` does establish the pairing — on success
the lead has both `assigned_bd_id` and `current_stage_id` set (the first
stage by position).  But `update_lead_stage` never touches `assigned_bd_id`
and sets `current_stage_id` unconditionally on any existing lead (admins and
managers are not restricted to BD-assigned leads), so the both-null-or-both-
set invariant of the original claim does not hold in general: a stage move on
a lead with a null BD leaves the stage set and the BD null
(`C9_counterexample`). -/
theorem C9_bd_stage_pairing (db : DB) (actor : User) (lid bdId sid : Nat)
    (lead : Lead) (fs : Nat)
    (hfind : findLead db lid = some lead)
    (hroleA : actor.role = Role.admin ∨ actor.role = Role.manager ∨
      actor.role = Role.bd_sales)
    (hst : lead.status = LeadStatus.Accepted)
    (hbd : ¬((db.users.filter (fun u => u.role == Role.bd_sales)).length = 0))
    (hfs : firstStageId db = some fs)
    (hsid : sid ≠ 0)
    (hstage : (db.pipeline_stages.any (fun s => s.id == sid)) = true)
    (hown : ¬(actor.role = Role.bd_sales ∧ lead.assigned_bd_id ≠ some actor.id)) :
    ((assign_bd_sales db actor lid bdId).fst = Res.ok ∧
      (findLead (assign_bd_sales db actor lid bdId).snd lid).map
        (fun l => (l.assigned_bd_id, l.current_stage_id)) =
        some (some bdId, some fs)) ∧
    ((update_lead_stage db actor lid sid).fst = Res.ok ∧
      (findLead (update_lead_stage db actor lid sid).snd lid).map
        (fun l => (l.assigned_bd_id, l.current_stage_id)) =
        some (lead.assigned_bd_id, some sid)) := by
  have hlid : lead.id = lid := by
    have := List.find?_some hfind
    simpa using this
  constructor
  · unfold assign_bd_sales
    rw [if_pos hroleA, hfind]
    dsimp only
    rw [if_neg (not_ne_iff.mpr hst), if_neg hbd, hfs]
    dsimp only
    constructor
    · rfl
    · show (findLead _ lid).map _ = _
      unfold findLead
      split <;> split <;>
      · dsimp only
        rw [find?_map_id_preserving db.leads lid _ (fun l => by split <;> rfl)]
        unfold findLead at hfind
        rw [hfind]
        simp [hlid]
  · unfold update_lead_stage
    rw [if_pos hroleA, if_neg hsid, if_neg (by simp [hstage]), hfind]
    dsimp only
    rw [if_neg hown]
    cases hbdid : lead.assigned_bd_id with
    | none =>
      dsimp only
      constructor
      · rfl
      · show (findLead _ lid).map _ = _
        unfold findLead
        dsimp only
        rw [find?_map_id_preserving db.leads lid _ (fun l => by split <;> rfl)]
        unfold findLead at hfind
        rw [hfind]
        simp [hlid, hbdid]
    | some b =>
      dsimp only
      by_cases hb : b ≠ actor.id
      · rw [if_pos hb]
        constructor
        · rfl
        · show (findLead _ lid).map _ = _
          unfold findLead
          dsimp only
          rw [find?_map_id_preserving db.leads lid _ (fun l => by split <;> rfl)]
          unfold findLead at hfind
          rw [hfind]
          simp [hlid, hbdid]
      · rw [if_neg hb]
        constructor
        · rfl
        · show (findLead _ lid).map _ = _
          unfold findLead
          dsimp only
          rw [find?_map_id_preserving db.leads lid _ (fun l => by split <;> rfl)]
          unfold findLead at hfind
          rw [hfind]
          simp [hlid, hbdid]

/-- C9 counterexample: admin moves the stage of an Accepted lead that has no
assigned BD; the call succeeds and leaves `current_stage_id` set with
`assigned_bd_id` still null — the pairing invariant is violated. -/
theorem C9_counterexample :
    (findLead noBdDB 1).map (fun l => (l.assigned_bd_id, l.current_stage_id)) =
      some (none, none) ∧
    (update_lead_stage noBdDB user_admin 1 1).fst = Res.ok ∧
    (findLead (update_lead_stage noBdDB user_admin 1 1).snd 1).map
      (fun l => (l.assigned_bd_id, l.current_stage_id)) =
      some (none, some 1) := by decide

/-- Witness for C9: the admin assigns BD user 5 to the Accepted lead 1, and
separately moves its stage to stage 2, on the concrete fixture. -/
theorem C9_bd_stage_pairing_witness :
    (findLead (assign_bd_sales noBdDB user_admin 1 5).snd 1).map
      (fun l => (l.assigned_bd_id, l.current_stage_id)) =
      some (some 5, some 1) ∧
    (findLead (update_lead_stage noBdDB user_admin 1 2).snd 1).map
      (fun l => (l.assigned_bd_id, l.current_stage_id)) =
      some (leadAcceptedNoBd.assigned_bd_id, some 2) :=
  ⟨(C9_bd_stage_pairing noBdDB user_admin 1 5 2 leadAcceptedNoBd 1
      (by decide) (Or.inl rfl) rfl (by decide) (by decide) (by decide)
      (by decide) (by decide)).1.2,
   (C9_bd_stage_pairing noBdDB user_admin 1 5 2 leadAcceptedNoBd 1
      (by decide) (Or.inl rfl) rfl (by decide) (by decide) (by decide)
      (by decide) (by decide)).2.2⟩

/-- C6 (amended): for a due activity that is **selected into the sweep's
batch** (among the 20 earliest due — `LIMIT 20`) and whose actor has no
notification embedding the activity's id created that day, running the
reminder sweep twice in succession produces exactly one tagged notification:
the second run finds the one created by the first run and skips.  The
original claim quantified over every due activity; with 21 due activities
the 21st is never selected and gets zero notifications
(`C6_counterexample`). -/
theorem C6_reminder_dedup (db : DB) (a : LeadActivity)
    (hmem : a ∈ reminderBatch db)
    (hnd : ((reminderBatch db).map (fun x => x.id)).Nodup)
    (hzero : reminderTagCount db a.actor_id a.id = 0) :
    reminderTagCount (check_and_send_activity_reminders
      (check_and_send_activity_reminders db)) a.actor_id a.id = 1 := by
  obtain ⟨pre, post, hsplit⟩ := List.append_of_mem hmem
  rw [hsplit, List.map_append, List.map_cons] at hnd
  obtain ⟨hndpre, hndcons, hdisj⟩ := List.nodup_append.mp hnd
  have hpre : ∀ b ∈ pre, b.id ≠ a.id := by
    intro b hb heq
    exact hdisj (List.mem_map_of_mem _ hb) (heq ▸ List.mem_cons_self _ _)
  have hpost : ∀ b ∈ post, b.id ≠ a.id := by
    intro b hb heq
    exact (List.nodup_cons.mp hndcons).1 (heq ▸ List.mem_map_of_mem _ hb)
  have hrun1 : reminderTagCount (check_and_send_activity_reminders db)
      a.actor_id a.id = 1 := by
    unfold check_and_send_activity_reminders
    rw [hsplit, foldReminders_run db pre post a hpre hpost, if_pos hzero]
  have hframe := foldReminders_frame (reminderBatch db) db
  have hbatch : reminderBatch (check_and_send_activity_reminders db) =
      reminderBatch db := by
    unfold check_and_send_activity_reminders
    exact reminderBatch_congr _ db hframe.1 hframe.2.1 hframe.2.2.1 hframe.2.2.2
  have hmain : ∀ X : DB, reminderBatch X = pre ++ a :: post →
      reminderTagCount X a.actor_id a.id = 1 →
      reminderTagCount (check_and_send_activity_reminders X)
        a.actor_id a.id = 1 := by
    intro X hX h1
    unfold check_and_send_activity_reminders
    rw [hX, foldReminders_run X pre post a hpre hpost,
      if_neg (by rw [h1]; exact one_ne_zero)]
    exact h1
  exact hmain (check_and_send_activity_reminders db)
    (by rw [hbatch, hsplit]) hrun1

/-- C6 counterexample: with 21 due activities (one over the sweep's
`LIMIT 20`), activity 21 is due, uncompleted and past its reminder, yet two
consecutive sweep runs create zero notifications tagged with its id — not
exactly one as the claim states for *every* due activity. -/
theorem C6_counterexample :
    mkActivity 21 ∈ manyRemindersDB.lead_activities ∧
    (mkActivity 21).reminder_at = some 21 ∧ 21 ≤ manyRemindersDB.now ∧
    (mkActivity 21).completed_at = none ∧
    mkActivity 21 ∈ dueReminderRows manyRemindersDB ∧
    reminderTagCount (check_and_send_activity_reminders
      (check_and_send_activity_reminders manyRemindersDB)) 5 21 = 0 := by
  decide

/-- Witness for C6 on the single-activity fixture: after two sweep runs the
actor holds exactly one notification tagged with the activity id. -/
theorem C6_reminder_dedup_witness :
    reminderTagCount (check_and_send_activity_reminders
      (check_and_send_activity_reminders oneReminderDB))
      (mkActivity 1).actor_id (mkActivity 1).id = 1 :=
  C6_reminder_dedup oneReminderDB (mkActivity 1) (by decide) (by decide)
    (by decide)

/-- C7: marketer submission always succeeds and creates the lead with status
Pending and id `nextLeadId`; its `current_manager_id` is exactly the
round-robin choice over the manager pool.  With an empty pool the lead has no
manager, no LeadAssignment row is created and no notification is sent (one
creation note only); with a non-empty pool the chosen manager gets a pending
LeadAssignment with deadline now+15h marked `is_initial_assignment`, a second
system note is written and the manager is notified. -/
theorem C7_submit_marketer (db : DB) (sub : User)
    (hrole : sub.role = Role.marketer) :
    (new_lead db sub none).fst = Res.ok ∧
    (new_lead db sub none).snd.snd = db.nextLeadId ∧
    (∃ nl : Lead,
      (new_lead db sub none).snd.fst.leads = db.leads ++ [nl] ∧
      nl.id = db.nextLeadId ∧ nl.status = LeadStatus.Pending ∧
      nl.current_manager_id = rrChoose (managerPool db) (settingsLastManager db)) ∧
    (managerPool db = [] →
      (new_lead db sub none).snd.fst.lead_assignments = db.lead_assignments ∧
      (new_lead db sub none).snd.fst.notifications = db.notifications ∧
      (new_lead db sub none).snd.fst.lead_notes.length =
        db.lead_notes.length + 1) ∧
    (∀ m, rrChoose (managerPool db) (settingsLastManager db) = some m →
      (new_lead db sub none).snd.fst.lead_assignments = db.lead_assignments ++
        [{ id := db.nextAssignmentId, lead_id := db.nextLeadId, manager_id := m,
           assigned_at := db.now, deadline_at := db.now + 15, acted_at := none,
           status := AsgStatus.pending, is_initial_assignment := true }] ∧
      (new_lead db sub none).snd.fst.notifications = db.notifications ++
        [{ id := db.nextNotificationId, user_id := m,
           lead_id := some db.nextLeadId, msg := Msg.newLeadAssigned,
           ntype := NotifType.assignment, created_day := dayOf db.now }] ∧
      (new_lead db sub none).snd.fst.lead_notes.length =
        db.lead_notes.length + 2) := by
  have hfst := newLeadAllocate_marketer_fst db sub none hrole
  obtain ⟨hL, hA, hN⟩ := newLeadAllocate_frame db sub none
  obtain ⟨hNotes, hNotif, hAsgId, hNotifId, hNow⟩ := newLeadAllocate_frame2 db sub none
  unfold new_lead
  rw [if_pos (Or.inl hrole)]
  dsimp only
  cases hc : (newLeadAllocate db sub none).fst with
  | none =>
    refine ⟨rfl, rfl,
      ⟨{ id := db.nextLeadId, submitted_by_user_id := sub.id,
         status := LeadStatus.Pending, current_manager_id := none,
         assigned_bd_id := none, current_stage_id := none, accepted_at := none },
        ?_, rfl, rfl, ?_⟩, ?_, ?_⟩
    · rw [hL]
    · rw [← hfst, hc]
    · intro _
      exact ⟨hA, hNotif, by rw [hNotes]; simp⟩
    · intro m hm
      rw [← hfst, hc] at hm
      cases hm
  | some m0 =>
    refine ⟨rfl, rfl,
      ⟨{ id := db.nextLeadId, submitted_by_user_id := sub.id,
         status := LeadStatus.Pending, current_manager_id := some m0,
         assigned_bd_id := none, current_stage_id := none, accepted_at := none },
        ?_, rfl, rfl, ?_⟩, ?_, ?_⟩
    · rw [hL]
    · rw [← hfst, hc]
    · intro hpool
      have hcc : rrChoose (managerPool db) (settingsLastManager db) = some m0 :=
        hfst.symm.trans hc
      rw [hpool] at hcc
      simp [rrChoose] at hcc
    · intro m hm
      rw [← hfst, hc] at hm
      cases hm
      refine ⟨?_, ?_, ?_⟩
      · rw [hA, hAsgId, hN, hNow]
      · rw [hNotif, hNotifId, hN, hNow]
      · rw [hNotes]
        simp

/-- Witness for C7: the empty-pool case on `noManagerDB` and the non-empty
pool case on `baseDB` (round-robin picks manager 2). -/
theorem C7_submit_marketer_witness :
    (new_lead noManagerDB user_marketer none).snd.fst.notifications =
      noManagerDB.notifications ∧
    (new_lead baseDB user_marketer none).snd.fst.lead_notes.length =
      baseDB.lead_notes.length + 2 :=
  ⟨((C7_submit_marketer noManagerDB user_marketer rfl).2.2.2.1
      (by decide)).2.1,
   ((C7_submit_marketer baseDB user_marketer rfl).2.2.2.2 2 (by decide)).2.2⟩


end LMS
